import Mathlib

/-!
# Verification of the rummy-style phase card game

Shallow embedding of the game's data model and operations:
the card/deck/meld types (`types.ts`), the deck and validation
utilities (`createDeck`, `shuffleDeck`, `isValidSet`, `isValidColor`,
`isValidRun`, `validatePhaseHand`, `canAddToMeld`, `calculateScore`
from the game-utils module) and the stateful game loop
(`handleDraw`, `performDiscard`, `endRound`, `botPlayTurn` from the
application component).

Modelling conventions:
* TypeScript `number` is embedded as `Int` (card values, scores, phase
  indices); list lengths and counts are `Nat`.
* Card ids are strings `card-0`, `card-1`, … generated from a counter;
  the counter value is injective into the id string, so ids are embedded
  as the counter's `Nat`.  Likewise player and meld ids are `Nat`.
* `displayValue` and player display names are UI-only strings and are
  kept only where an operation reads them.
* `Math.random()` has no shallow embedding: `shuffleDeck` takes the
  stream of Fisher–Yates indices as an explicit `List Nat` argument and
  the bot's meld coin-flip (`Math.random() > 0.85`) is a `Bool` argument.
* The React component keeps game state in `useState` cells; a synchronous
  run of an event handler commits, for each cell, the value of the *last*
  `setX` call, while every *read* of a cell sees the value from before the
  handler ran (stale closure).  The embedding makes this explicit: each
  handler is a function from a `GameSnapshot` (the pre-handler cell
  values) to the committed snapshot.
* Code paths that throw in JavaScript (indexing `undefined`) are
  embedded as `Option.none`.
-/

/-- `CardColor` from `types.ts`. -/
inductive CardColor
  | RED
  | BLUE
  | GREEN
  | YELLOW
  | WILD
  | SKIP
  deriving DecidableEq, Repr

/-- `CardType` from `types.ts`. -/
inductive CardType
  | NUMBER
  | WILD
  | SKIP
  deriving DecidableEq, Repr

/-- `Card` from `types.ts` (`displayValue` is a UI echo of `value` and is
omitted; ids are the generating counter, see module docstring). -/
structure Card where
  id : Nat
  type : CardType
  color : CardColor
  value : Int
  deriving DecidableEq, Repr

/-- `RequirementType` from `types.ts`. -/
inductive RequirementType
  | SET
  | RUN
  | COLOR
  deriving DecidableEq, Repr

/-- `PhaseRequirement` from `types.ts`. -/
structure PhaseRequirement where
  type : RequirementType
  count : Nat
  deriving DecidableEq, Repr

/-- `Phase` from `types.ts` (name/description are UI strings, omitted). -/
structure Phase where
  id : Nat
  requirements : List PhaseRequirement
  deriving DecidableEq, Repr

/-- `Meld` from `types.ts`. -/
structure Meld where
  id : Nat
  cards : List Card
  type : RequirementType
  ownerId : Nat
  deriving DecidableEq, Repr

/-- `Player` from `types.ts`.  `isSkipped?` is optional in TS and read
only as a truthy flag, embedded as a plain `Bool`. -/
structure Player where
  id : Nat
  name : String
  isHuman : Bool
  hand : List Card
  melds : List Meld
  phaseIndex : Int
  hasLaidDownPhase : Bool
  score : Int
  isSkipped : Bool
  deriving DecidableEq, Repr

/-- `GameState` from `types.ts`. -/
inductive GameState
  | LOBBY
  | GENERATING
  | PLAYING
  | ROUND_OVER
  | GAME_OVER
  deriving DecidableEq, Repr

/-- `TurnPhase` from `types.ts`. -/
inductive TurnPhase
  | DRAW
  | ACTION
  | DISCARD
  deriving DecidableEq, Repr

/-- `COLORS` from the constants module: the four playable colors. -/
def COLORS : List CardColor := [.RED, .BLUE, .GREEN, .YELLOW]

/-- `createDeck` from the game-utils module: two sets of numbers 1–12 per
color, then 8 wilds, then 4 skips, ids from a running counter. -/
def createDeck : List Card :=
  let numberFold :=
    COLORS.foldl (fun (acc : List Card × Nat) color =>
      (List.range 2).foldl (fun (acc2 : List Card × Nat) _ =>
        (List.range 12).foldl (fun (acc3 : List Card × Nat) vIdx =>
          (acc3.1 ++ [{ id := acc3.2, type := .NUMBER, color := color,
                        value := (vIdx : Int) + 1 }],
           acc3.2 + 1))
          acc2)
        acc)
      ([], 0)
  let wildFold :=
    (List.range 8).foldl (fun (acc : List Card × Nat) _ =>
      (acc.1 ++ [{ id := acc.2, type := .WILD, color := .WILD, value := 25 }],
       acc.2 + 1))
      numberFold
  let skipFold :=
    (List.range 4).foldl (fun (acc : List Card × Nat) _ =>
      (acc.1 ++ [{ id := acc.2, type := .SKIP, color := .SKIP, value := 15 }],
       acc.2 + 1))
      wildFold
  skipFold.1

/-- Swap the entries at positions `i` and `j` of a list (the body of one
Fisher–Yates iteration, `[newDeck[i], newDeck[j]] = [newDeck[j], newDeck[i]]`). -/
def listSwap (l : List Card) (i j : Nat) : List Card :=
  match l[i]?, l[j]? with
  | some a, some b => (l.set i b).set j a
  | _, _ => l

/-- `shuffleDeck` from the game-utils module: Fisher–Yates.  The TS loop
runs `i` from `length-1` down to `1` and picks `j = ⌊random()*(i+1)⌋`;
the random draws are supplied as the list `js` (reduced `mod (i+1)`,
matching the range of the TS draw). -/
def shuffleDeck (js : List Nat) (deck : List Card) : List Card :=
  let n := deck.length
  (List.range (n - 1)).foldl (fun d k =>
    let i := n - 1 - k
    let j := (js.getD k 0) % (i + 1)
    listSwap d i j) deck

/-- The tail of `isValidSet` after the filters: all-wild selections are
valid (`naturalCards.length === 0`); otherwise every natural card must
share the first natural card's value and naturals plus wilds must reach
the required count. -/
def setCheck (naturalCards wilds : List Card) (requiredCount : Nat) : Bool :=
  match naturalCards with
  | [] => true
  | c0 :: rest =>
    ((c0 :: rest).all fun c => c.value == c0.value) &&
      decide ((c0 :: rest).length + wilds.length ≥ requiredCount)

/-- `isValidSet` from the game-utils module. -/
def isValidSet (cards : List Card) (requiredCount : Nat) : Bool :=
  if cards.length < requiredCount then false else
  setCheck (cards.filter fun c => c.type == CardType.NUMBER)
    (cards.filter fun c => c.type == CardType.WILD) requiredCount

/-- The tail of `isValidColor` after the filters: like `setCheck` but
grouping by color. -/
def colorCheck (naturalCards wilds : List Card) (requiredCount : Nat) : Bool :=
  match naturalCards with
  | [] => true
  | c0 :: rest =>
    ((c0 :: rest).all fun c => c.color == c0.color) &&
      decide ((c0 :: rest).length + wilds.length ≥ requiredCount)

/-- `isValidColor` from the game-utils module (naturals here are number
*and* skip cards). -/
def isValidColor (cards : List Card) (requiredCount : Nat) : Bool :=
  if cards.length < requiredCount then false else
  colorCheck (cards.filter fun c =>
      c.type == CardType.NUMBER || c.type == CardType.SKIP)
    (cards.filter fun c => c.type == CardType.WILD) requiredCount

/-- The gap-scanning loop of `isValidRun`: walks adjacent pairs of the
sorted natural cards; `none` on a duplicate value (`diff === 0`,
immediate `return false` in TS), otherwise the total `neededWilds`. -/
def runGaps : List Card → Option Nat
  | [] => some 0
  | [_] => some 0
  | a :: b :: rest =>
    let diff := b.value - a.value
    if diff == 0 then none
    else (runGaps (b :: rest)).map fun n =>
      n + (if diff > 1 then (diff - 1).toNat else 0)

/-- The comparator of `sort((a, b) => a.value - b.value)`: ascending by
card value. -/
def valueLE (a b : Card) : Prop := a.value ≤ b.value

instance : DecidableRel valueLE := fun a b => Int.decLe a.value b.value

instance : IsTotal Card valueLE := ⟨fun a b => Int.le_total a.value b.value⟩

instance : IsTrans Card valueLE := ⟨fun _ _ _ h h2 => Int.le_trans h h2⟩

/-- The tail of `isValidRun` after sorting: all-wild selections are
valid; otherwise the wild count must cover the accumulated gaps and no
duplicate value may occur. -/
def runCheck (sortedNaturals : List Card) (wildCount : Nat) : Bool :=
  match sortedNaturals with
  | [] => true
  | c0 :: rest =>
    match runGaps (c0 :: rest) with
    | none => false
    | some neededWilds => decide (wildCount ≥ neededWilds)

/-- `isValidRun` from the game-utils module.  The TS
`sort((a, b) => a.value - b.value)` is a stable ascending sort by value,
embedded as the (stable) insertion sort under `valueLE`. -/
def isValidRun (cards : List Card) (requiredCount : Nat) : Bool :=
  if cards.length < requiredCount then false else
  runCheck
    ((cards.filter fun c => c.type == CardType.NUMBER).insertionSort valueLE)
    (cards.filter fun c => c.type == CardType.WILD).length

/-- `checkSingleReq` from the game-utils module. -/
def checkSingleReq (cards : List Card) (req : PhaseRequirement) : Bool :=
  match req.type with
  | .SET => isValidSet cards req.count
  | .COLOR => isValidColor cards req.count
  | .RUN => isValidRun cards req.count

/-- The bipartition of `cards` encoded by bitmask `i`
(the inner `for j` loop of `validatePhaseHand`): bit `j` set sends
`cards[j]` to the first group, otherwise to the second. -/
def splitByMask (cards : List Card) (i : Nat) : List Card × List Card :=
  ((List.range cards.length).filterMap fun j =>
      if (i >>> j) % 2 == 1 then cards[j]? else none,
   (List.range cards.length).filterMap fun j =>
      if (i >>> j) % 2 == 1 then none else cards[j]?)

/-- The mask-enumeration loop of the two-requirement case of
`validatePhaseHand`, iterating over the remaining masks in order. -/
def searchSplit (cards : List Card) (r1 r2 : PhaseRequirement) :
    List Nat → Option (List (List Card))
  | [] => none
  | i :: is =>
    let group1 := (splitByMask cards i).1
    let group2 := (splitByMask cards i).2
    if checkSingleReq group1 r1 && checkSingleReq group2 r2 then
      some [group1, group2]
    else if checkSingleReq group2 r1 && checkSingleReq group1 r2 then
      some [group2, group1]
    else searchSplit cards r1 r2 is

/-- Result record of `validatePhaseHand` (`{ valid, groups? }`). -/
structure ValidationOutcome where
  valid : Bool
  groups : Option (List (List Card))
  deriving DecidableEq, Repr

/-- `validatePhaseHand` from the game-utils module.  The TS function
dispatches on `requirements.length` being 1, 2, or anything else; the
two-requirement case scans masks `i = 1 .. 2^n - 2`. -/
def validatePhaseHand (selectedCards : List Card)
    (requirements : List PhaseRequirement) : ValidationOutcome :=
  let cards := selectedCards
  match requirements with
  | [req] =>
    let valid :=
      match req.type with
      | .SET => isValidSet cards req.count
      | .COLOR => isValidColor cards req.count
      | .RUN => isValidRun cards req.count
    { valid := valid, groups := if valid then some [cards] else none }
  | [r1, r2] =>
    match searchSplit cards r1 r2 ((List.range ((1 <<< cards.length) - 1)).drop 1) with
    | some groups => { valid := true, groups := some groups }
    | none => { valid := false, groups := none }
  | _ => { valid := false, groups := none }

/-- `canAddToMeld` from the game-utils module. -/
def canAddToMeld (card : Card) (meld : Meld) : Bool :=
  if card.type == CardType.SKIP then false
  else
    let newGroup := meld.cards ++ [card]
    match meld.type with
    | .SET => isValidSet newGroup meld.cards.length
    | .COLOR => isValidColor newGroup meld.cards.length
    | .RUN => isValidRun newGroup meld.cards.length

/-- `calculateScore` from the game-utils module. -/
def calculateScore (hand : List Card) : Int :=
  hand.foldl (fun acc card =>
    if card.type == CardType.WILD then acc + 25
    else if card.type == CardType.SKIP then acc + 15
    else if card.value ≥ 10 then acc + 10
    else acc + 5) 0

/-- The game-relevant `useState` cells of the application component.
A synchronous handler run maps one snapshot (the values all reads see)
to the committed snapshot (per cell, the last `setX` value). -/
structure GameSnapshot where
  players : List Player
  deck : List Card
  discardPile : List Card
  currentPlayerIndex : Nat
  turnPhase : TurnPhase
  gameState : GameState
  roundWinnerId : Option Nat
  phases : List Phase
  isMultiplayer : Bool
  isHost : Bool
  timeLeft : Nat
  deriving DecidableEq, Repr

/-- The player-list update of `endRound` from the application component:
non-winners gain `calculateScore` of their hand, then everyone who laid
down advances `phaseIndex` by 1 capped by `Math.min` at
`phases.length - 1` (TS numbers; the cap is `-1` on an empty phase list,
hence `Int`). -/
def endRoundPlayers (players : List Player) (phases : List Phase)
    (winnerId : Nat) : List Player :=
  let updatedPlayers := players.map fun p =>
    if p.id = winnerId then { p with score := p.score }
    else { p with score := p.score + calculateScore p.hand }
  updatedPlayers.map fun p =>
    { p with phaseIndex :=
        if p.hasLaidDownPhase then
          min (p.phaseIndex + 1) ((phases.length : Int) - 1)
        else p.phaseIndex }

/-- `performDiscard` from the application component.  Returns the
committed snapshot and the notification (if any).  When the discard
empties the hand, the nested `endRound(player.id)` call reads the *stale*
`players` cell, so the batch's final `setPlayers` (endRound's) is built
from `s.players`, discarding the `newPlayers` update made just before —
the embedding reproduces that. -/
def performDiscard (s : GameSnapshot) (player : Player)
    (cardToDiscard : Card) : GameSnapshot × Option String :=
  let newHand := player.hand.filter fun c => !(c.id == cardToDiscard.id)
  let newDiscard := s.discardPile ++ [cardToDiscard]
  let newPlayers := s.players.set s.currentPlayerIndex { player with hand := newHand }
  if newHand.length = 0 then
    ({ s with discardPile := newDiscard,
              players := endRoundPlayers s.players s.phases player.id,
              roundWinnerId := some player.id,
              gameState := GameState.ROUND_OVER }, none)
  else
    let nextIndex := (s.currentPlayerIndex + 1) % s.players.length
    if cardToDiscard.type = CardType.SKIP then
      let msg := (((s.players[nextIndex]?).map Player.name).getD "") ++ " was skipped!"
      let newPlayers2 :=
        match newPlayers[nextIndex]? with
        | some skippedPlayer =>
          newPlayers.set nextIndex { skippedPlayer with isSkipped := true }
        | none => newPlayers
      ({ s with discardPile := newDiscard, players := newPlayers2,
                currentPlayerIndex := (nextIndex + 1) % s.players.length,
                turnPhase := TurnPhase.DRAW }, some msg)
    else
      ({ s with discardPile := newDiscard, players := newPlayers,
                currentPlayerIndex := nextIndex,
                turnPhase := TurnPhase.DRAW }, none)

/-- The common tail of `handleDraw`: put the drawn card in the current
player's hand, commit deck/discard, move to `ACTION`. -/
def finishDraw (s : GameSnapshot) (player : Player) (card : Card)
    (newDeck newDiscard : List Card) : GameSnapshot :=
  { s with deck := newDeck, discardPile := newDiscard,
           players := s.players.set s.currentPlayerIndex
             { player with hand := player.hand ++ [card] },
           turnPhase := TurnPhase.ACTION }

/-- `handleDraw` from the application component (host/local execution;
the client branch only forwards the action over the network and changes
no local cell).  `js` feeds `shuffleDeck` on the recycle path.  `none`
marks paths that throw in TS (indexing `undefined`); the unreachable
empty-recycled-deck pop, which TS would let through as an `undefined`
card, is also mapped to `none`. -/
def handleDraw (js : List Nat) (s : GameSnapshot) (fromDiscard : Bool) :
    Option (GameSnapshot × Option String) :=
  if s.isMultiplayer && !s.isHost then some (s, none) else
  match s.players[s.currentPlayerIndex]? with
  | none => none
  | some player =>
    if !player.isHuman && decide (0 < s.timeLeft) && !s.isMultiplayer then
      some (s, none)
    else if fromDiscard then
      match s.discardPile.getLast? with
      | none => none
      | some top =>
        if top.type = CardType.SKIP then
          some (s, some "Cannot pick up a Skip card!")
        else
          some (finishDraw s player top s.deck s.discardPile.dropLast, none)
    else
      if s.deck.length = 0 then
        if s.discardPile.length ≤ 1 then
          some (s, some "Deck empty and no discard to shuffle. Game Draw.")
        else
          match s.discardPile.getLast? with
          | none => none
          | some top =>
            let newDeck := shuffleDeck js s.discardPile.dropLast
            match newDeck.getLast? with
            | none => none
            | some card =>
              some (finishDraw s player card newDeck.dropLast [top], none)
      else
        match s.deck.getLast? with
        | none => none
        | some card =>
          some (finishDraw s player card s.deck.dropLast s.discardPile, none)

/-- TS `phases[i]` under an `Int` index: `undefined` (here `none`) when
out of range or negative. -/
def listGetInt {α : Type} (l : List α) (i : Int) : Option α :=
  if i < 0 then none else l[i.toNat]?

/-- The bot's meld id derives from `Date.now()`; the clock has
no shallow embedding and no modelled operation reads this id. -/
def botMeldFreshId : Nat := 0

/-- Step 1 of `botPlayTurn`: draw from the deck, or recycle the discard
pile.  Returns the deck value passed to `setDeck` and the drawn card;
`none` is the bot's early `return` (deck empty, discard ≤ 1 — no cell
committed).  Note the TS code builds `currentDiscard = [top]` locally but
never calls `setDiscardPile`, so the recycled discard value is never
committed and is not returned here. -/
def botDrawStep (js : List Nat) (deck discardPile : List Card) :
    Option (List Card × Card) :=
  match deck.getLast? with
  | some cardDrawn => some (deck.dropLast, cardDrawn)
  | none =>
    if 1 < discardPile.length then
      match (shuffleDeck js discardPile.dropLast).getLast? with
      | some cardDrawn =>
        some ((shuffleDeck js discardPile.dropLast).dropLast, cardDrawn)
      | none => none
    else none

/-- The comparator of `sort((a, b) => b.value - a.value)`: descending by
card value. -/
def valueGE (a b : Card) : Prop := b.value ≤ a.value

instance : DecidableRel valueGE := fun a b => Int.decLe b.value a.value

/-- `botPlayTurn` from the application component.  `coin` is the
`Math.random() > 0.85` meld coin-flip.  Outer `none` marks the TS crash
on `phases[bot.phaseIndex].requirements` when the phase index is out of
range.  All reads of `players`/`discardPile` inside the nested
`performDiscard` see the stale snapshot `s`; the meld-branch `setPlayers`
survives only when no discard follows it. -/
def botPlayTurn (js : List Nat) (coin : Bool) (s : GameSnapshot)
    (bot : Player) : Option GameSnapshot :=
  if s.gameState ≠ GameState.PLAYING then some s else
  match botDrawStep js s.deck s.discardPile with
  | none => some s
  | some (newDeck, cardDrawn) =>
    let currentHand := bot.hand ++ [cardDrawn]
    let sDeck := { s with deck := newDeck }
    let meldStep : Option (List Card × List Player × Bool) :=
      if !bot.hasLaidDownPhase && decide (6 ≤ currentHand.length) && coin then
        (listGetInt s.phases bot.phaseIndex).map fun phase =>
          let reqCount := phase.requirements.foldl (fun a b => a + b.count) 0
          let meldCards := currentHand.take reqCount
          let handAfter := currentHand.drop reqCount
          let botMeld : Meld := { id := botMeldFreshId, cards := meldCards,
                                  type := RequirementType.SET, ownerId := bot.id }
          let botIndex := s.players.findIdx fun p => p.id == bot.id
          (handAfter,
           s.players.set botIndex { bot with melds := bot.melds ++ [botMeld] },
           true)
      else some (currentHand, s.players, false)
    meldStep.bind fun step =>
      let botUpdated : Player :=
        { bot with hand := step.1,
                   hasLaidDownPhase := bot.hasLaidDownPhase || step.2.2 }
      let sortedHand := step.1.insertionSort valueGE
      let discardCard := (sortedHand.find? fun c =>
          !(c.type == CardType.WILD) && !(c.type == CardType.SKIP)).orElse
          fun _ => sortedHand.head?
      match discardCard with
      | some dc => some (performDiscard sDeck botUpdated dc).1
      | none => some { sDeck with players := step.2.1 }

/-- The card ids a player holds: hand plus all owned melds. -/
def playerCardIds (p : Player) : List Nat :=
  p.hand.map Card.id ++ (p.melds.map fun m => m.cards.map Card.id).flatten

/-- Every card id in the round, across deck, discard pile, hands and
melds (the multiset the conservation invariant speaks about, as a list). -/
def allCardIds (s : GameSnapshot) : List Nat :=
  s.deck.map Card.id ++ s.discardPile.map Card.id
    ++ (s.players.map playerCardIds).flatten

/-! ## Concrete fixtures used by the claim theorems and witnesses -/

/-- A number card. -/
def mkN (id : Nat) (c : CardColor) (v : Int) : Card := ⟨id, .NUMBER, c, v⟩

/-- A wild card. -/
def mkW (id : Nat) : Card := ⟨id, .WILD, .WILD, 25⟩

/-- A skip card. -/
def mkS (id : Nat) : Card := ⟨id, .SKIP, .SKIP, 15⟩

/-- `[3,4,6,7]` of one color plus 2 wild cards: six cards in total. -/
def runSixCards : List Card :=
  [mkN 0 .RED 3, mkN 1 .RED 4, mkN 2 .RED 6, mkN 3 .RED 7, mkW 4, mkW 5]

/-- `[3,4,6,7]` of one color plus 3 wild cards: seven cards in total. -/
def runSevenCards : List Card := runSixCards ++ [mkW 6]

/-- Number cards with the duplicate values `[3,3,4]`. -/
def dupCards : List Card := [mkN 0 .RED 3, mkN 1 .RED 3, mkN 2 .RED 4]

/-- A `SET` meld of three value-5 cards, all of color `RED`. -/
def meldFives : Meld := ⟨0, [mkN 0 .RED 5, mkN 1 .RED 5, mkN 2 .RED 5], .SET, 0⟩

/-- A value-5 number card of a different color (`BLUE`). -/
def fiveBlue : Card := mkN 3 .BLUE 5

/-- The bot of the conservation failing input: current player, already
laid down (so the meld coin-flip is irrelevant), one card in hand. -/
def botStale : Player :=
  { id := 10
    name := "Alpha"
    isHuman := false
    hand := [mkN 100 .BLUE 9]
    melds := []
    phaseIndex := 0
    hasLaidDownPhase := true
    score := 0
    isSkipped := false }

/-- The conservation failing input: `PLAYING`, empty deck, two-card
discard pile, the bot to move — `botPlayTurn` must take the
recycle-discard-into-deck path. -/
def staleSnapshot : GameSnapshot :=
  { players := [botStale]
    deck := []
    discardPile := [mkN 101 .RED 2, mkN 102 .GREEN 4]
    currentPlayerIndex := 0
    turnPhase := .DRAW
    gameState := .PLAYING
    roundWinnerId := none
    phases := []
    isMultiplayer := false
    isHost := false
    timeLeft := 30 }

/-- A human player with one card, used by the draw witnesses. -/
def humanFixture : Player :=
  { id := 1
    name := "Host"
    isHuman := true
    hand := [mkN 50 .RED 1]
    melds := []
    phaseIndex := 0
    hasLaidDownPhase := false
    score := 0
    isSkipped := false }

/-- Empty deck and a single-card discard pile: the stalemate draw. -/
def drawStuckSnap : GameSnapshot :=
  { players := [humanFixture]
    deck := []
    discardPile := [mkN 60 .BLUE 2]
    currentPlayerIndex := 0
    turnPhase := .DRAW
    gameState := .PLAYING
    roundWinnerId := none
    phases := []
    isMultiplayer := false
    isHost := true
    timeLeft := 30 }

/-- Empty deck and a two-card discard pile: the recycling draw. -/
def drawRecycleSnap : GameSnapshot :=
  { drawStuckSnap with discardPile := [mkN 60 .BLUE 2, mkN 61 .GREEN 3] }

/-- The discarder of the skip-card witness: holds a skip and a number. -/
def skipper : Player :=
  { humanFixture with id := 2, hand := [mkS 70, mkN 71 .RED 5] }

/-- The skip card the witness discards. -/
def skipCard : Card := mkS 70

/-- A three-player snapshot for the skip-discard witness. -/
def skipSnap : GameSnapshot :=
  { drawStuckSnap with
      players := [skipper, { humanFixture with id := 3 },
                  { humanFixture with id := 4 }] }

/-- A non-winner who laid down this round, for the round-end witness. -/
def loser : Player :=
  { humanFixture with id := 5, hand := [mkW 80, mkN 81 .RED 11, mkN 82 .RED 3]
                      hasLaidDownPhase := true, score := 10 }

/-- The round winner of the round-end witness (empty hand). -/
def winner : Player :=
  { humanFixture with id := 6, hand := [], score := 5 }

/-- Roster for the round-end witness. -/
def roster : List Player := [loser, winner]

/-- A two-phase list, so the cap of the round-end phase advance is 1. -/
def phasesFixture : List Phase :=
  [⟨1, [⟨.SET, 3⟩, ⟨.SET, 3⟩]⟩, ⟨2, [⟨.RUN, 7⟩]⟩]

/-- Three cards in one order … -/
def permCardsA : List Card := [mkN 0 .RED 3, mkN 1 .BLUE 3, mkW 2]

/-- … and the same three cards in another order. -/
def permCardsB : List Card := [mkW 2, mkN 0 .RED 3, mkN 1 .BLUE 3]

/-! ## Claim theorems -/

set_option maxRecDepth 10000

/-- C1 (refuted by the code, round-state conservation is broken):
on the failing input — `PLAYING`, empty deck, discard pile holding card
ids 101 and 102, the bot (hand `[100]`, already laid down) to move —
`botPlayTurn` takes the recycle path, commits the recycled deck with
`setDeck`, but never commits the shrunk discard pile, and the nested
`performDiscard` appends to the stale pile.  Card id 101 is counted once
before the step and twice after it, for every random stream and every
meld coin-flip: the multiset of card ids is not preserved. -/
theorem claim1_conservation_violated_by_bot :
    ∀ (js : List Nat) (coin : Bool),
      (botPlayTurn js coin staleSnapshot botStale).map
        (fun t => ((allCardIds t).count 101, (allCardIds staleSnapshot).count 101))
        = some (2, 1) := by
  intro js coin
  rfl

/-- C2 (counterexample to the claim as stated): four number cards
`[3,4,6,7]` of one color plus 2 wild cards are six cards in total, and
`isValidRun` requires at least `requiredCount` cards, so the verdict at
a count-7 requirement is `false`, not `true`. -/
theorem claim2_counterexample : isValidRun runSixCards 7 = false := by decide

/-- C2 (amended): with 3 wild cards (seven cards in total) the count-7
run verdict is `true`; and for every required count, number cards with
the duplicate values `[3,3,4]` yield `false`. -/
theorem claim2_amended :
    isValidRun runSevenCards 7 = true ∧
    ∀ (n : Nat), isValidRun dupCards n = false := by
  refine ⟨by decide, ?_⟩
  intro n
  match n with
  | 0 | 1 | 2 | 3 => decide
  | (m + 4) =>
    have h : dupCards.length < m + 4 := by
      simp only [dupCards, mkN, List.length_cons, List.length_nil]
      omega
    unfold isValidRun
    rw [if_pos h]

/-- C3: `createDeck` yields exactly 108 cards — 96 number cards (two of
each value 1–12 in each of the four playable colors), 8 wilds, 4 skips —
with pairwise-distinct ids. -/
theorem claim3_createDeck_composition :
    createDeck.length = 108 ∧
    (createDeck.filter fun c => c.type == CardType.NUMBER).length = 96 ∧
    (COLORS.all fun color => (List.range 12).all fun v =>
      (createDeck.filter fun c =>
        c.type == CardType.NUMBER && c.color == color &&
          c.value == (v : Int) + 1).length == 2) = true ∧
    (createDeck.filter fun c => c.type == CardType.WILD).length = 8 ∧
    (createDeck.filter fun c => c.type == CardType.SKIP).length = 4 ∧
    (createDeck.map Card.id).Nodup := by decide

/-- C6: adding a value-5 card of a new color to a `SET` meld of three
fives is accepted; a skip card is rejected by every meld; and for
non-skip cards `canAddToMeld` is exactly a re-validation of the whole
group (meld cards plus the new card) under the meld's requirement kind
at the meld's current size. -/
theorem claim6_canAddToMeld_revalidates :
    canAddToMeld fiveBlue meldFives = true ∧
    (∀ (c : Card) (m : Meld), c.type = CardType.SKIP → canAddToMeld c m = false) ∧
    (∀ (c : Card) (m : Meld), c.type ≠ CardType.SKIP →
      canAddToMeld c m =
        checkSingleReq (m.cards ++ [c]) ⟨m.type, m.cards.length⟩) := by
  refine ⟨by decide, ?_, ?_⟩
  · intro c m h
    simp [canAddToMeld, h]
  · intro c m h
    have hb : (c.type == CardType.SKIP) = false := by
      simp [h]
    simp only [canAddToMeld, checkSingleReq, hb, Bool.false_eq_true, if_false]

/-- Witness for C6: the skip-rejection and re-validation parts at the
concrete fixture meld. -/
theorem claim6_witness :
    canAddToMeld (mkS 9) meldFives = false ∧
    canAddToMeld fiveBlue meldFives =
      checkSingleReq (meldFives.cards ++ [fiveBlue])
        ⟨meldFives.type, meldFives.cards.length⟩ :=
  ⟨claim6_canAddToMeld_revalidates.2.1 (mkS 9) meldFives rfl,
   claim6_canAddToMeld_revalidates.2.2 fiveBlue meldFives (by decide)⟩

/-- C10: a phase whose requirement list has length other than 1 or 2 is
rejected by `validatePhaseHand` for every selection, with no groups. -/
theorem claim10_validatePhaseHand_other_arities (cards : List Card)
    (reqs : List PhaseRequirement) (h1 : reqs.length ≠ 1)
    (h2 : reqs.length ≠ 2) :
    validatePhaseHand cards reqs = ⟨false, none⟩ := by
  match reqs with
  | [] => rfl
  | [r] => exact absurd rfl h1
  | [r, r2] => exact absurd rfl h2
  | r :: r2 :: r3 :: t => rfl

/-- Witness for C10: a three-requirement phase is rejected. -/
theorem claim10_witness :
    validatePhaseHand [fiveBlue] [⟨.SET, 3⟩, ⟨.SET, 3⟩, ⟨.RUN, 4⟩] =
      ⟨false, none⟩ :=
  claim10_validatePhaseHand_other_arities _ _ (by decide) (by decide)

/-- A single Fisher–Yates swap preserves length. -/
theorem listSwap_length (l : List Card) (i j : Nat) :
    (listSwap l i j).length = l.length := by
  unfold listSwap
  cases h1 : l[i]? <;> cases h2 : l[j]? <;> simp

/-- Folding Fisher–Yates swaps preserves length. -/
theorem foldl_listSwap_length (f g : Nat → Nat) :
    ∀ (ks : List Nat) (d : List Card),
      (ks.foldl (fun d k => listSwap d (f k) (g k)) d).length = d.length
  | [], _ => rfl
  | k :: ks, d => by
    rw [List.foldl_cons, foldl_listSwap_length f g ks, listSwap_length]

/-- `shuffleDeck` preserves length for every random stream. -/
theorem shuffleDeck_length (js : List Nat) (l : List Card) :
    (shuffleDeck js l).length = l.length := by
  exact foldl_listSwap_length (fun k => l.length - 1 - k)
    (fun k => js.getD k 0 % (l.length - 1 - k + 1)) (List.range (l.length - 1)) l

/-- C4: drawing from the deck (`fromDiscard = false`) with the deck
empty.  If the discard pile has at most one card the snapshot is
returned unchanged together with the resource-exhaustion notice; with at
least two cards, the top discard is held aside, the rest is shuffled
into the new deck, the discard pile becomes exactly `[top]`, and the
player draws (the shuffled deck's last card) into their hand, moving to
`ACTION`. -/
theorem claim4_handleDraw_empty_deck (js : List Nat) (s : GameSnapshot)
    (player : Player)
    (hmp : s.isMultiplayer = false)
    (hp : s.players[s.currentPlayerIndex]? = some player)
    (hh : player.isHuman = true)
    (hdeck : s.deck = []) :
    (s.discardPile.length ≤ 1 →
      handleDraw js s false =
        some (s, some "Deck empty and no discard to shuffle. Game Draw.")) ∧
    (2 ≤ s.discardPile.length →
      ∃ top card,
        s.discardPile.getLast? = some top ∧
        (shuffleDeck js s.discardPile.dropLast).getLast? = some card ∧
        handleDraw js s false = some
          ({ s with
              deck := (shuffleDeck js s.discardPile.dropLast).dropLast
              discardPile := [top]
              players := s.players.set s.currentPlayerIndex
                { player with hand := player.hand ++ [card] }
              turnPhase := TurnPhase.ACTION }, none)) := by
  constructor
  · intro hd
    unfold handleDraw
    rw [hp]
    simp [hmp, hh, hdeck, hd]
  · intro hd
    have hne : s.discardPile ≠ [] := by
      intro h
      rw [h] at hd
      simp at hd
    obtain ⟨top, htop⟩ : ∃ top, s.discardPile.getLast? = some top :=
      ⟨s.discardPile.getLast hne, List.getLast?_eq_getLast _ hne⟩
    have hsne : shuffleDeck js s.discardPile.dropLast ≠ [] := by
      intro h
      have h2 := shuffleDeck_length js s.discardPile.dropLast
      rw [h] at h2
      simp [List.length_dropLast] at h2
      omega
    obtain ⟨card, hcard⟩ :
        ∃ card, (shuffleDeck js s.discardPile.dropLast).getLast? = some card :=
      ⟨_, List.getLast?_eq_getLast _ hsne⟩
    refine ⟨top, card, htop, hcard, ?_⟩
    have hd1 : ¬ (s.discardPile.length ≤ 1) := by omega
    unfold handleDraw
    split
    · next h => rw [hmp] at h; simp at h
    · split
      · next heq => rw [hp] at heq; cases heq
      · next p heq =>
        rw [hp] at heq
        obtain rfl : player = p := Option.some.inj heq
        rw [if_neg (show ¬((!player.isHuman && decide (0 < s.timeLeft)
              && !s.isMultiplayer) = true) by rw [hh]; simp)]
        rw [if_neg (show ¬(false = true) by simp)]
        rw [if_pos (show s.deck.length = 0 by rw [hdeck]; rfl)]
        simp only [htop, hcard]
        rfl

/-- Witness for C4: both branches at concrete snapshots — the stalemate
notice on a one-card discard pile, and the recycle on a two-card pile. -/
theorem claim4_witness :
    (drawStuckSnap.discardPile.length ≤ 1 →
      handleDraw [] drawStuckSnap false =
        some (drawStuckSnap,
          some "Deck empty and no discard to shuffle. Game Draw.")) ∧
    (2 ≤ drawRecycleSnap.discardPile.length →
      ∃ top card,
        drawRecycleSnap.discardPile.getLast? = some top ∧
        (shuffleDeck [] drawRecycleSnap.discardPile.dropLast).getLast?
          = some card ∧
        handleDraw [] drawRecycleSnap false = some
          ({ drawRecycleSnap with
              deck := (shuffleDeck [] drawRecycleSnap.discardPile.dropLast).dropLast
              discardPile := [top]
              players := drawRecycleSnap.players.set
                drawRecycleSnap.currentPlayerIndex
                { humanFixture with hand := humanFixture.hand ++ [card] }
              turnPhase := TurnPhase.ACTION }, none)) :=
  ⟨(claim4_handleDraw_empty_deck [] drawStuckSnap humanFixture
      rfl rfl rfl rfl).1,
   (claim4_handleDraw_empty_deck [] drawRecycleSnap humanFixture
      rfl rfl rfl rfl).2⟩

/-- C5: discarding a `SKIP` card that does not empty the hand advances
the current-player index by exactly 2 modulo the player count, flags the
immediately-following player as skipped, and moves the sub-phase to
`DRAW`.  The `+2 mod n` form shows the skip is applied exactly once. -/
theorem claim5_performDiscard_skip (s : GameSnapshot) (player : Player)
    (card : Card)
    (hlen : s.currentPlayerIndex < s.players.length)
    (htype : card.type = CardType.SKIP)
    (hhand : (player.hand.filter fun c => !(c.id == card.id)) ≠ []) :
    (performDiscard s player card).1.currentPlayerIndex
        = (s.currentPlayerIndex + 2) % s.players.length ∧
    (∃ q, (performDiscard s player card).1.players[(s.currentPlayerIndex + 1)
          % s.players.length]? = some q ∧ q.isSkipped = true) ∧
    (performDiscard s player card).1.turnPhase = TurnPhase.DRAW := by
  have hn : 0 < s.players.length := Nat.lt_of_le_of_lt (Nat.zero_le _) hlen
  have hnext : (s.currentPlayerIndex + 1) % s.players.length
      < s.players.length := Nat.mod_lt _ hn
  have hlen0 : ¬ ((player.hand.filter fun c => !(c.id == card.id)).length = 0) := by
    simpa [List.length_eq_zero] using hhand
  have hnext2 : (s.currentPlayerIndex + 1) % s.players.length <
      (s.players.set s.currentPlayerIndex
        { player with
            hand := player.hand.filter fun c => !(c.id == card.id) }).length := by
    rw [List.length_set]
    exact hnext
  unfold performDiscard
  simp only [htype, if_pos rfl, hlen0, if_false, if_neg hlen0, if_true]
  rw [List.getElem?_eq_getElem hnext2]
  refine ⟨?_, ?_, trivial⟩
  · show ((s.currentPlayerIndex + 1) % s.players.length + 1) % s.players.length
        = (s.currentPlayerIndex + 2) % s.players.length
    rw [Nat.mod_add_mod]
  · exact ⟨_, List.getElem?_set_self (by rw [List.length_set]; exact hnext), rfl⟩

/-- Witness for C5: in a three-player game, discarding a skip moves the
index from 0 to 2, flags player 1, and returns to `DRAW`. -/
theorem claim5_witness :
    (performDiscard skipSnap skipper skipCard).1.currentPlayerIndex
        = (skipSnap.currentPlayerIndex + 2) % skipSnap.players.length ∧
    (∃ q, (performDiscard skipSnap skipper skipCard).1.players[
          (skipSnap.currentPlayerIndex + 1) % skipSnap.players.length]?
        = some q ∧ q.isSkipped = true) ∧
    (performDiscard skipSnap skipper skipCard).1.turnPhase = TurnPhase.DRAW :=
  claim5_performDiscard_skip skipSnap skipper skipCard (by decide) rfl
    (by decide)

/-- C7: at round end, each non-winner's score grows by exactly
`calculateScore` of their hand (wild 25, skip 15, value ≥ 10 worth 10,
else 5), the winner's score is unchanged, and exactly the players with
`hasLaidDownPhase` advance their phase index by 1, capped at the last
phase index. -/
theorem claim7_endRound_scores_and_phases (players : List Player)
    (phases : List Phase) (winnerId : Nat) (i : Nat) (p : Player)
    (hp : players[i]? = some p) :
    (endRoundPlayers players phases winnerId).length = players.length ∧
    (endRoundPlayers players phases winnerId)[i]? = some
      { p with
        score := if p.id = winnerId then p.score
                 else p.score + calculateScore p.hand
        phaseIndex := if p.hasLaidDownPhase then
            min (p.phaseIndex + 1) ((phases.length : Int) - 1)
          else p.phaseIndex } := by
  constructor
  · simp [endRoundPlayers]
  · simp only [endRoundPlayers, List.getElem?_map, hp, Option.map_some]
    by_cases h1 : p.id = winnerId <;> by_cases h2 : p.hasLaidDownPhase <;>
      simp [h1, h2]

/-- Witness for C7: a laid-down loser is scored and advanced. -/
theorem claim7_witness :
    (endRoundPlayers roster phasesFixture 6).length = roster.length ∧
    (endRoundPlayers roster phasesFixture 6)[0]? = some
      { loser with
        score := if loser.id = 6 then loser.score
                 else loser.score + calculateScore loser.hand
        phaseIndex := if loser.hasLaidDownPhase then
            min (loser.phaseIndex + 1) ((phasesFixture.length : Int) - 1)
          else loser.phaseIndex } :=
  claim7_endRound_scores_and_phases roster phasesFixture 6 0 loser rfl

/-- Appending a wild card leaves the number-card filter unchanged. -/
theorem filter_number_append_wild (cards : List Card) (w : Card)
    (hw : w.type = CardType.WILD) :
    (cards ++ [w]).filter (fun c => c.type == CardType.NUMBER)
      = cards.filter (fun c => c.type == CardType.NUMBER) := by
  rw [List.filter_append]
  simp [hw]

/-- Appending a wild card leaves the number-or-skip filter unchanged. -/
theorem filter_colorNat_append_wild (cards : List Card) (w : Card)
    (hw : w.type = CardType.WILD) :
    (cards ++ [w]).filter
        (fun c => c.type == CardType.NUMBER || c.type == CardType.SKIP)
      = cards.filter
        (fun c => c.type == CardType.NUMBER || c.type == CardType.SKIP) := by
  rw [List.filter_append]
  simp [hw]

/-- Appending a wild card appends it to the wild filter. -/
theorem filter_wild_append_wild (cards : List Card) (w : Card)
    (hw : w.type = CardType.WILD) :
    (cards ++ [w]).filter (fun c => c.type == CardType.WILD)
      = cards.filter (fun c => c.type == CardType.WILD) ++ [w] := by
  rw [List.filter_append]
  simp [hw]

/-- An extra wild can only help `setCheck`. -/
theorem setCheck_more_wilds (naturals wilds : List Card) (w : Card) (n : Nat)
    (h : setCheck naturals wilds n = true) :
    setCheck naturals (wilds ++ [w]) n = true := by
  cases naturals with
  | nil => rfl
  | cons c0 rest =>
    simp only [setCheck, Bool.and_eq_true, decide_eq_true_eq,
      List.length_append] at h ⊢
    exact ⟨h.1, by omega⟩

/-- An extra wild can only help `colorCheck`. -/
theorem colorCheck_more_wilds (naturals wilds : List Card) (w : Card) (n : Nat)
    (h : colorCheck naturals wilds n = true) :
    colorCheck naturals (wilds ++ [w]) n = true := by
  cases naturals with
  | nil => rfl
  | cons c0 rest =>
    simp only [colorCheck, Bool.and_eq_true, decide_eq_true_eq,
      List.length_append] at h ⊢
    exact ⟨h.1, by omega⟩

/-- An extra wild can only help `runCheck`. -/
theorem runCheck_more_wilds (sortedNaturals : List Card) (wc : Nat)
    (h : runCheck sortedNaturals wc = true) :
    runCheck sortedNaturals (wc + 1) = true := by
  cases sortedNaturals with
  | nil => rfl
  | cons c0 rest =>
    simp only [runCheck] at h ⊢
    cases hg : runGaps (c0 :: rest) with
    | none =>
      rw [hg] at h
      simp at h
    | some k =>
      rw [hg] at h
      simp only [decide_eq_true_eq] at h ⊢
      omega

/-- A wild card extends any valid set. -/
theorem isValidSet_append_wild (cards : List Card) (n : Nat) (w : Card)
    (hw : w.type = CardType.WILD) (h : isValidSet cards n = true) :
    isValidSet (cards ++ [w]) n = true := by
  unfold isValidSet at h ⊢
  by_cases hlen : cards.length < n
  · rw [if_pos hlen] at h
    cases h
  · rw [if_neg hlen] at h
    rw [if_neg (by simp only [List.length_append, List.length_cons,
      List.length_nil]; omega)]
    rw [filter_number_append_wild cards w hw, filter_wild_append_wild cards w hw]
    exact setCheck_more_wilds _ _ w n h

/-- A wild card extends any valid color group. -/
theorem isValidColor_append_wild (cards : List Card) (n : Nat) (w : Card)
    (hw : w.type = CardType.WILD) (h : isValidColor cards n = true) :
    isValidColor (cards ++ [w]) n = true := by
  unfold isValidColor at h ⊢
  by_cases hlen : cards.length < n
  · rw [if_pos hlen] at h
    cases h
  · rw [if_neg hlen] at h
    rw [if_neg (by simp only [List.length_append, List.length_cons,
      List.length_nil]; omega)]
    rw [filter_colorNat_append_wild cards w hw, filter_wild_append_wild cards w hw]
    exact colorCheck_more_wilds _ _ w n h

/-- A wild card extends any valid run. -/
theorem isValidRun_append_wild (cards : List Card) (n : Nat) (w : Card)
    (hw : w.type = CardType.WILD) (h : isValidRun cards n = true) :
    isValidRun (cards ++ [w]) n = true := by
  unfold isValidRun at h ⊢
  by_cases hlen : cards.length < n
  · rw [if_pos hlen] at h
    cases h
  · rw [if_neg hlen] at h
    rw [if_neg (by simp only [List.length_append, List.length_cons,
      List.length_nil]; omega)]
    rw [filter_number_append_wild cards w hw, filter_wild_append_wild cards w hw,
      List.length_append]
    exact runCheck_more_wilds _ _ h

/-- C9: a wild card can be hit onto any meld whose current card list is
already valid for its own requirement kind at its current size, whatever
that kind is. -/
theorem claim9_wild_hits_any_valid_meld (m : Meld) (w : Card)
    (hw : w.type = CardType.WILD)
    (hv : checkSingleReq m.cards ⟨m.type, m.cards.length⟩ = true) :
    canAddToMeld w m = true := by
  have hns : (w.type == CardType.SKIP) = false := by
    rw [hw]
    rfl
  unfold canAddToMeld
  rw [hns]
  simp only [Bool.false_eq_true, if_false]
  unfold checkSingleReq at hv
  cases hm : m.type with
  | SET =>
    rw [hm] at hv
    exact isValidSet_append_wild _ _ _ hw hv
  | COLOR =>
    rw [hm] at hv
    exact isValidColor_append_wild _ _ _ hw hv
  | RUN =>
    rw [hm] at hv
    exact isValidRun_append_wild _ _ _ hw hv

/-- Witness for C9: a wild hits the valid `SET` meld of three fives. -/
theorem claim9_witness : canAddToMeld (mkW 8) meldFives = true :=
  claim9_wild_hits_any_valid_meld meldFives (mkW 8) rfl (by decide)

/-- All cards equal to the head, transported along a permutation. -/
theorem all_eq_head_of_perm {β : Type} [DecidableEq β] (f : Card → β)
    {a b : Card} {t1 t2 : List Card} (h : (a :: t1).Perm (b :: t2))
    (hall : ∀ c ∈ a :: t1, f c = f a) : ∀ c ∈ b :: t2, f c = f b := by
  have hb : f b = f a := hall b (h.mem_iff.mpr (List.mem_cons_self b t2))
  intro c hc
  rw [hall c (h.mem_iff.mpr hc), hb]

/-- The `every`-against-the-first-element check is order-invariant. -/
theorem all_head_perm {β : Type} [DecidableEq β] (f : Card → β)
    {a b : Card} {t1 t2 : List Card} (h : (a :: t1).Perm (b :: t2)) :
    ((a :: t1).all fun c => f c == f a)
      = ((b :: t2).all fun c => f c == f b) := by
  rw [Bool.eq_iff_iff]
  simp only [List.all_eq_true, beq_iff_eq]
  exact ⟨all_eq_head_of_perm f h, all_eq_head_of_perm f h.symm⟩

/-- `setCheck` depends only on the naturals up to order and the wild
count. -/
theorem setCheck_perm {n1 n2 w1 w2 : List Card} (hn : n1.Perm n2)
    (hw : w1.length = w2.length) (k : Nat) :
    setCheck n1 w1 k = setCheck n2 w2 k := by
  cases n1 with
  | nil =>
    cases n2 with
    | nil => rfl
    | cons b t2 =>
      have h2 := hn.length_eq
      simp at h2
  | cons a t1 =>
    cases n2 with
    | nil =>
      have h2 := hn.length_eq
      simp at h2
    | cons b t2 =>
      simp only [setCheck]
      rw [all_head_perm Card.value hn, hn.length_eq, hw]

/-- `colorCheck` depends only on the naturals up to order and the wild
count. -/
theorem colorCheck_perm {n1 n2 w1 w2 : List Card} (hn : n1.Perm n2)
    (hw : w1.length = w2.length) (k : Nat) :
    colorCheck n1 w1 k = colorCheck n2 w2 k := by
  cases n1 with
  | nil =>
    cases n2 with
    | nil => rfl
    | cons b t2 =>
      have h2 := hn.length_eq
      simp at h2
  | cons a t1 =>
    cases n2 with
    | nil =>
      have h2 := hn.length_eq
      simp at h2
    | cons b t2 =>
      simp only [colorCheck]
      rw [all_head_perm Card.color hn, hn.length_eq, hw]

/-- The gap scan only reads card values. -/
theorem runGaps_congr : ∀ (l1 l2 : List Card),
    l1.map Card.value = l2.map Card.value → runGaps l1 = runGaps l2
  | [], [], _ => rfl
  | [], _ :: _, h => by simp at h
  | _ :: _, [], h => by simp at h
  | [_], [_], _ => rfl
  | [_], _ :: _ :: _, h => by simp at h
  | _ :: _ :: _, [_], h => by simp at h
  | a :: b :: t1, c :: d :: t2, h => by
    simp only [List.map_cons, List.cons.injEq] at h
    obtain ⟨h1, h2, h3⟩ := h
    unfold runGaps
    rw [h1, h2, runGaps_congr (b :: t1) (d :: t2) (by simp [h2, h3])]

/-- `runCheck` only reads card values. -/
theorem runCheck_congr {s1 s2 : List Card}
    (h : s1.map Card.value = s2.map Card.value) (wc : Nat) :
    runCheck s1 wc = runCheck s2 wc := by
  cases s1 with
  | nil =>
    cases s2 with
    | nil => rfl
    | cons b t2 => simp at h
  | cons a t1 =>
    cases s2 with
    | nil => simp at h
    | cons b t2 =>
      simp only [runCheck]
      rw [runGaps_congr (a :: t1) (b :: t2) h]

/-- Value-sorting two permuted lists yields the same value sequence. -/
theorem insertionSort_map_value_perm {l1 l2 : List Card} (h : l1.Perm l2) :
    (l1.insertionSort valueLE).map Card.value
      = (l2.insertionSort valueLE).map Card.value := by
  apply List.eq_of_perm_of_sorted (r := ((· ≤ ·) : Int → Int → Prop))
  · exact (((List.perm_insertionSort valueLE l1).trans h).trans
      (List.perm_insertionSort valueLE l2).symm).map Card.value
  · rw [List.Sorted, List.pairwise_map]
    exact (List.sorted_insertionSort valueLE l1).imp (fun hab => hab)
  · rw [List.Sorted, List.pairwise_map]
    exact (List.sorted_insertionSort valueLE l2).imp (fun hab => hab)

/-- C8: each of the three validators gives the same verdict on any
permutation of its input cards, for every required count. -/
theorem claim8_validators_order_invariant (cards1 cards2 : List Card)
    (n : Nat) (h : cards1.Perm cards2) :
    isValidSet cards1 n = isValidSet cards2 n ∧
    isValidColor cards1 n = isValidColor cards2 n ∧
    isValidRun cards1 n = isValidRun cards2 n := by
  have hlen := h.length_eq
  refine ⟨?_, ?_, ?_⟩
  · unfold isValidSet
    rw [hlen]
    by_cases hl : cards2.length < n
    · rw [if_pos hl, if_pos hl]
    · rw [if_neg hl, if_neg hl]
      exact setCheck_perm (h.filter _) (h.filter _).length_eq n
  · unfold isValidColor
    rw [hlen]
    by_cases hl : cards2.length < n
    · rw [if_pos hl, if_pos hl]
    · rw [if_neg hl, if_neg hl]
      exact colorCheck_perm (h.filter _) (h.filter _).length_eq n
  · unfold isValidRun
    rw [hlen]
    by_cases hl : cards2.length < n
    · rw [if_pos hl, if_pos hl]
    · rw [if_neg hl, if_neg hl]
      rw [(h.filter (fun c => c.type == CardType.WILD)).length_eq]
      exact runCheck_congr (insertionSort_map_value_perm (h.filter _)) _

/-- Witness for C8: the three verdicts agree on a concretely permuted
pair of card lists at count 3. -/
theorem claim8_witness :
    isValidSet permCardsA 3 = isValidSet permCardsB 3 ∧
    isValidColor permCardsA 3 = isValidColor permCardsB 3 ∧
    isValidRun permCardsA 3 = isValidRun permCardsB 3 :=
  claim8_validators_order_invariant permCardsA permCardsB 3 (by decide)
